import Mathlib

/-!
Verification of the solar-system animation program (src/main.cpp).

The program keeps three scalar animation accumulators plus two control
flags, advanced once per rendered frame, and issues a fixed sequence of
matrix-stack operations to place the sun, eight planets and a moon.
We embed the clock state over the rationals (exact arithmetic) and the
per-body drawing code as a symbolic trace of GL matrix operations, both
translated directly from src/main.cpp.
-/

namespace Solar

/-- The animation state of the program: the three scalar accumulators and
the two control flags declared at src/main.cpp lines 42-43 and 66-68.
Scalars are modelled over the rationals. -/
structure Clock where
  HourOfDay : ℚ
  DayOfYear : ℚ
  AnimateIncrement : ℚ
  spinMode : Bool
  singleStep : Bool
deriving DecidableEq

/-- The initial state: HourOfDay = 0, DayOfYear = 0, AnimateIncrement = 24,
spinMode = true, singleStep = false (src/main.cpp lines 42-43, 66-68). -/
def initClock : Clock :=
  { HourOfDay := 0, DayOfYear := 0, AnimateIncrement := 24,
    spinMode := true, singleStep := false }

/-- Key handler for r (src/main.cpp lines 153-164): if a single step is
pending, cancel it and restart the animation, otherwise toggle spinMode. -/
def Key_r (c : Clock) : Clock :=
  if c.singleStep then { c with singleStep := false, spinMode := true }
  else { c with spinMode := !c.spinMode }

/-- Key handler for s (src/main.cpp lines 166-170): request a single step. -/
def Key_s (c : Clock) : Clock :=
  { c with singleStep := true, spinMode := true }

/-- Key handler for the up arrow (src/main.cpp lines 172-175): double the
animation time step. -/
def Key_up (c : Clock) : Clock :=
  { c with AnimateIncrement := c.AnimateIncrement * 2 }

/-- Key handler for the down arrow (src/main.cpp lines 177-180): halve the
animation time step. -/
def Key_down (c : Clock) : Clock :=
  { c with AnimateIncrement := c.AnimateIncrement / 2 }

/-- The clock update performed by one call of Animate (src/main.cpp):
lines 193-201 accumulate HourOfDay and DayOfYear when spinMode is set,
and lines 307-310 stop the animation when singleStep is set.  Note that
the frame code never resets singleStep itself; only Key_r does. -/
def advance (c : Clock) : Clock :=
  let c1 := if c.spinMode then
      { c with HourOfDay := c.HourOfDay + c.AnimateIncrement,
               DayOfYear := c.DayOfYear + c.AnimateIncrement / 24 }
    else c
  if c1.singleStep then { c1 with spinMode := false } else c1

/-! Orbital constants (src/main.cpp lines 46-63). -/

def MERCURY_YEAR : ℚ := 88.0
def VENUS_YEAR : ℚ := 225.0
def EARTH_YEAR : ℚ := 365.0
def MARS_YEAR : ℚ := 687.0
def JUPITER_YEAR : ℚ := 4332.0
def SATURN_YEAR : ℚ := 29.5 * 365.0
def URANUS_YEAR : ℚ := 84.0 * 365.0
def NEPTUNE_YEAR : ℚ := 165.0 * 365.0

def MERCURY_DAY : ℚ := 58.7
def VENUS_DAY : ℚ := 243.0
def EARTH_DAY : ℚ := 1.0
def MARS_DAY : ℚ := 24.6 / 24
def JUPITER_DAY : ℚ := 9.83 / 24
def SATURN_DAY : ℚ := 10.23 / 24
def URANUS_DAY : ℚ := 17.23 / 24
def NEPTUNE_DAY : ℚ := 16.1 / 24

/-- The per-planet record of the table in Animate
(src/main.cpp lines 239-247). -/
structure Planet where
  distance : ℚ
  year : ℚ
  day : ℚ
  size : ℚ
  r : ℚ
  g : ℚ
  b : ℚ
  image : String
deriving DecidableEq

/-- The fixed planet table (src/main.cpp lines 249-257). -/
def planets : List Planet :=
  [⟨0.579, MERCURY_YEAR, MERCURY_DAY, 0.1, 0.5, 0.5, 0.5, "images/mercury.bmp"⟩,
   ⟨1.082, VENUS_YEAR, VENUS_DAY, 0.12, 0.9, 0.6, 0.1, "images/venus.bmp"⟩,
   ⟨1.496, EARTH_YEAR, EARTH_DAY, 0.13, 0.2, 0.2, 1.0, "images/earth.bmp"⟩,
   ⟨2.28, MARS_YEAR, MARS_DAY, 0.07, 1.0, 0.0, 0.0, "images/mars.bmp"⟩,
   ⟨7.79, JUPITER_YEAR, JUPITER_DAY, 0.3, 1.0, 0.5, 0.0, "images/jupiter.bmp"⟩,
   ⟨14.27, SATURN_YEAR, SATURN_DAY, 0.25, 1.0, 1.0, 0.5, "images/saturn.bmp"⟩,
   ⟨28.71, URANUS_YEAR, URANUS_DAY, 0.2, 0.5, 0.5, 1.0, "images/uranus.bmp"⟩,
   ⟨44.97, NEPTUNE_YEAR, NEPTUNE_DAY, 0.18, 0.3, 0.3, 0.8, "images/neptune.bmp"⟩]

/-- The Earth entry of the planet table (src/main.cpp line 252). -/
def earthEntry : Planet :=
  ⟨1.496, EARTH_YEAR, EARTH_DAY, 0.13, 0.2, 0.2, 1.0, "images/earth.bmp"⟩

/-- The Mercury entry of the planet table (src/main.cpp line 250). -/
def mercuryEntry : Planet :=
  ⟨0.579, MERCURY_YEAR, MERCURY_DAY, 0.1, 0.5, 0.5, 0.5, "images/mercury.bmp"⟩

/-- A matrix-stack operation issued by Animate, with rotation and
translation arguments recorded symbolically. -/
inductive GLOp where
  | pushMatrix : GLOp
  | popMatrix : GLOp
  | rotatef : ℚ → ℚ → ℚ → ℚ → GLOp
  | translatef : ℚ → ℚ → ℚ → GLOp
  | drawSphere : ℚ → GLOp
deriving DecidableEq

/-- The matrix-stack operations issued by one iteration of the planet loop
(src/main.cpp lines 259-293): glPushMatrix (line 263), the two rotations
and the translation (lines 264-266), the sphere draw (line 282), and the
two glPopMatrix calls (lines 288 and 292). -/
def planetDrawOps (c : Clock) (p : Planet) : List GLOp :=
  [GLOp.pushMatrix,
   GLOp.rotatef (360 * c.DayOfYear / p.year) 0 1 0,
   GLOp.translatef p.distance 0 0,
   GLOp.rotatef (360 * c.HourOfDay / p.day) 0 1 0,
   GLOp.drawSphere p.size,
   GLOp.popMatrix,
   GLOp.popMatrix]

/-- The matrix-stack operations issued by the moon block
(src/main.cpp lines 295-301). -/
def moonDrawOps (c : Clock) : List GLOp :=
  [GLOp.pushMatrix,
   GLOp.rotatef (360 * c.DayOfYear / EARTH_YEAR) 0 1 0,
   GLOp.translatef 1.496 0 0,
   GLOp.rotatef (360 * 12 * c.DayOfYear / 365) 0 1 0,
   GLOp.translatef 0.2 0 0,
   GLOp.drawSphere 0.05,
   GLOp.popMatrix]

/-- The orbital position angle in degrees used at src/main.cpp line 264. -/
def orbitalAngleDeg (c : Clock) (p : Planet) : ℚ :=
  360 * c.DayOfYear / p.year

/-- The spin angle in degrees used at src/main.cpp line 266. -/
def spinAngleDeg (c : Clock) (p : Planet) : ℚ :=
  360 * c.HourOfDay / p.day

/-- The extra rotation angle of the moon in degrees used at
src/main.cpp line 298. -/
def moonExtraAngleDeg (c : Clock) : ℚ :=
  360 * 12 * c.DayOfYear / 365

/-- Modelled from the claim wording, for comparison with the source: the
moon trace as claim C2 describes it, with the parent full transform
including all three of its steps (the spin rotation included) before the
extra lunar rotation and offset.  The source (src/main.cpp lines 295-301)
omits the spin step. -/
def moonDrawOpsClaimed (c : Clock) : List GLOp :=
  [GLOp.pushMatrix,
   GLOp.rotatef (orbitalAngleDeg c earthEntry) 0 1 0,
   GLOp.translatef earthEntry.distance 0 0,
   GLOp.rotatef (spinAngleDeg c earthEntry) 0 1 0,
   GLOp.rotatef (360 * 12 * c.DayOfYear / 365) 0 1 0,
   GLOp.translatef 0.2 0 0,
   GLOp.drawSphere 0.05,
   GLOp.popMatrix]

/-- Number of pushMatrix operations in a trace. -/
def countPush : List GLOp → Nat
  | [] => 0
  | GLOp.pushMatrix :: rest => countPush rest + 1
  | _ :: rest => countPush rest

/-- Number of popMatrix operations in a trace. -/
def countPop : List GLOp → Nat
  | [] => 0
  | GLOp.popMatrix :: rest => countPop rest + 1
  | _ :: rest => countPop rest

/-- The invariant relating the two accumulators (spec section 3). -/
def ClockInv (c : Clock) : Prop :=
  c.DayOfYear = c.HourOfDay / 24

/-- A paused clock used as a concrete instance. -/
def pausedClock : Clock :=
  { initClock with spinMode := false }

/-! ## Theorems -/

/-- C1: each iteration of the planet loop applies, in order, a rotation
about the +Y axis by 360 times DayOfYear over the orbital period, a
translation along local X by the orbital radius, and a rotation about the
same +Y axis by 360 times HourOfDay over the rotation period, before the
sphere is drawn; and with DayOfYear = 91.25 and an orbital period of 365
days the orbital angle is exactly 90 degrees. -/
theorem planet_transform_order (c : Clock) (p : Planet) :
    planetDrawOps c p =
      GLOp.pushMatrix ::
        GLOp.rotatef (360 * (c.DayOfYear / p.year)) 0 1 0 ::
        GLOp.translatef p.distance 0 0 ::
        GLOp.rotatef (360 * (c.HourOfDay / p.day)) 0 1 0 ::
        GLOp.drawSphere p.size :: GLOp.popMatrix :: [GLOp.popMatrix] ∧
    orbitalAngleDeg { initClock with DayOfYear := 91.25 } earthEntry = 90 := by
  constructor
  · simp [planetDrawOps, mul_div_assoc]
  · norm_num [orbitalAngleDeg, earthEntry, EARTH_YEAR, initClock]

/-- C4 (code bug): each iteration of the planet loop pushes the matrix
stack once but pops it twice (glPopMatrix at src/main.cpp lines 288 and
292 after a single glPushMatrix at line 263), so the push/pop pairing is
not balanced one-to-one as the spec describes. -/
theorem planet_pushpop_unbalanced (c : Clock) (p : Planet) :
    countPush (planetDrawOps c p) = 1 ∧ countPop (planetDrawOps c p) = 2 :=
  ⟨rfl, rfl⟩

/-- C5: from any clock state, requestSingleStep followed by one advance
leaves the animation stopped, and a second advance changes nothing. -/
theorem single_step_then_freeze (c : Clock) :
    (advance (Key_s c)).spinMode = false ∧
    advance (advance (Key_s c)) = advance (Key_s c) := by
  cases c
  simp [advance, Key_s]

/-- C6: a clock with spinMode and singleStep both false is a fixed point
of advance, so any number of advances leaves the whole state unchanged. -/
theorem paused_clock_fixed (c : Clock) (h1 : c.spinMode = false)
    (h2 : c.singleStep = false) (n : ℕ) :
    advance^[n] c = c := by
  induction n with
  | zero => rfl
  | succ k ih =>
      rw [Function.iterate_succ_apply, show advance c = c by
        cases c
        simp_all [advance]]
      exact ih

/-- Witness for C6 at a concrete paused clock and five advances. -/
theorem paused_clock_fixed_witness : advance^[5] pausedClock = pausedClock :=
  paused_clock_fixed pausedClock rfl rfl 5

/-- C8: the up arrow doubles the time step, the down arrow halves it, with
no clamping, and the two compose to the identity on the whole state. -/
theorem rate_double_halve (c : Clock) :
    (Key_up c).AnimateIncrement = c.AnimateIncrement * 2 ∧
    (Key_down c).AnimateIncrement = c.AnimateIncrement / 2 ∧
    Key_down (Key_up c) = c := by
  cases c
  simp [Key_up, Key_down]

/-- C10: the hardcoded base placement of the moon (rotation by 360 times
DayOfYear over EARTH_YEAR, translation by 1.496) coincides, for every
clock state, with the first two transform steps the planet loop produces
for the Earth entry of the table; the Earth spin step is excluded. -/
theorem moon_base_refines_earth (c : Clock) :
    planets.get? 2 = some earthEntry ∧
    (moonDrawOps c).take 3 = (planetDrawOps c earthEntry).take 3 :=
  ⟨rfl, rfl⟩

/-- C2 counterexample: at the clock state reached after one advance from
the initial state, the moon trace produced by the source differs from the
trace the claim describes, because the source omits the parent spin step
(src/main.cpp lines 295-301 rebuild only the orbit rotation and the
translation of the Earth transform). -/
theorem moon_claimed_trace_counterexample :
    moonDrawOps (advance initClock) ≠ moonDrawOpsClaimed (advance initClock) := by
  intro h
  have hlen := congrArg List.length h
  simp [moonDrawOps, moonDrawOpsClaimed] at hlen

/-- C2 (amended): the moon transform is layered on the first two steps of
the Earth transform only (orbital rotation and translation; the Earth
spin step is excluded), followed by an extra rotation about the vertical
axis by 360 times 12 times DayOfYear over 365 and a translation by 0.2;
at DayOfYear = 365 / 24 that extra rotation is exactly 180 degrees. -/
theorem moon_transform_amended (c : Clock) :
    moonDrawOps c =
      GLOp.pushMatrix ::
        GLOp.rotatef (orbitalAngleDeg c earthEntry) 0 1 0 ::
        GLOp.translatef earthEntry.distance 0 0 ::
        GLOp.rotatef (moonExtraAngleDeg c) 0 1 0 ::
        GLOp.translatef 0.2 0 0 ::
        GLOp.drawSphere 0.05 :: [GLOp.popMatrix] ∧
    moonExtraAngleDeg { initClock with DayOfYear := 365 / 24 } = 180 := by
  constructor
  · rfl
  · norm_num [moonExtraAngleDeg, initClock]

/-- C3 counterexample: after requestSingleStep and one advance from the
initial state, the animation is stopped but the singleStep flag is still
set: the frame code (src/main.cpp lines 307-310) never clears it. -/
theorem single_step_not_cleared :
    (advance (Key_s initClock)).spinMode = false ∧
    (advance (Key_s initClock)).singleStep = true := by
  decide

/-- C3 (amended): when spinMode is true, advance adds AnimateIncrement to
HourOfDay and AnimateIncrement / 24 to DayOfYear and then stops the
animation exactly when singleStep is set, but singleStep itself is left
unchanged (only Key_r clears it); when spinMode is false, the state is
unchanged. -/
theorem advance_amended (c : Clock) :
    (c.spinMode = true →
      (advance c).HourOfDay = c.HourOfDay + c.AnimateIncrement ∧
      (advance c).DayOfYear = c.DayOfYear + c.AnimateIncrement / 24 ∧
      (advance c).AnimateIncrement = c.AnimateIncrement ∧
      (advance c).singleStep = c.singleStep ∧
      (advance c).spinMode = !c.singleStep) ∧
    (c.spinMode = false → advance c = c) := by
  cases c with
  | mk h d a s p =>
    constructor
    · intro hs
      subst hs
      cases p <;> simp [advance]
    · intro hs
      subst hs
      cases p <;> simp [advance]

/-- Witness for C3 (amended) at the initial state and at a paused state. -/
theorem advance_amended_witness :
    (advance initClock).HourOfDay =
      initClock.HourOfDay + initClock.AnimateIncrement ∧
    advance pausedClock = pausedClock :=
  ⟨((advance_amended initClock).1 rfl).1, (advance_amended pausedClock).2 rfl⟩

/-- C7: the invariant DayOfYear = HourOfDay / 24 holds in the initial
state and is preserved by advance and by every key handler. -/
theorem day_hour_invariant :
    ClockInv initClock ∧
    ∀ c, ClockInv c →
      ClockInv (advance c) ∧ ClockInv (Key_r c) ∧ ClockInv (Key_s c) ∧
      ClockInv (Key_up c) ∧ ClockInv (Key_down c) := by
  constructor
  · norm_num [ClockInv, initClock]
  · intro c hc
    cases c with
    | mk h d a s p =>
      refine ⟨?_, ?_, ?_, ?_, ?_⟩
      · cases s <;> cases p <;> simp_all [ClockInv, advance] <;> ring
      · cases p <;> simp_all [ClockInv, Key_r]
      · simp_all [ClockInv, Key_s]
      · simp_all [ClockInv, Key_up]
      · simp_all [ClockInv, Key_down]

/-- Witness for C7: the invariant holds after one advance from the
initial state. -/
theorem day_hour_invariant_witness : ClockInv (advance initClock) :=
  (day_hour_invariant.2 initClock day_hour_invariant.1).1

/-- Helper: iterating advance from a running state with no pending single
step accumulates linearly, with no reduction modulo 24 or 365. -/
theorem advance_iterate_running (c : Clock) (hrun : c.spinMode = true)
    (hss : c.singleStep = false) (n : ℕ) :
    advance^[n] c =
      { c with HourOfDay := c.HourOfDay + n * c.AnimateIncrement,
               DayOfYear := c.DayOfYear + n * (c.AnimateIncrement / 24) } := by
  induction n generalizing c with
  | zero =>
      cases c
      simp
  | succ k ih =>
      rw [Function.iterate_succ_apply]
      have h1 : advance c =
          { c with HourOfDay := c.HourOfDay + c.AnimateIncrement,
                   DayOfYear := c.DayOfYear + c.AnimateIncrement / 24 } := by
        cases c
        simp_all [advance]
      rw [h1, ih _ (by simp [hrun]) (by simp [hss])]
      cases c
      simp only [Clock.mk.injEq]
      push_cast
      refine ⟨by ring, by ring, trivial, trivial, trivial⟩

/-- C9: HourOfDay and DayOfYear are never reduced modulo 24 or 365: from
any running state they accumulate linearly without bound over any number
of advances, and the spin angle uses the unreduced value, so that
HourOfDay = 12 with a rotation period of 1 day yields exactly 4320
degrees. -/
theorem accumulators_unreduced (c : Clock) (n : ℕ) (hrun : c.spinMode = true)
    (hss : c.singleStep = false) :
    (advance^[n] c).HourOfDay = c.HourOfDay + n * c.AnimateIncrement ∧
    (advance^[n] c).DayOfYear = c.DayOfYear + n * (c.AnimateIncrement / 24) ∧
    spinAngleDeg { initClock with HourOfDay := 12 } earthEntry = 4320 := by
  rw [advance_iterate_running c hrun hss n]
  refine ⟨rfl, rfl, ?_⟩
  norm_num [spinAngleDeg, earthEntry, EARTH_DAY, initClock]

/-- Witness for C9 at the initial state with two advances. -/
theorem accumulators_unreduced_witness :
    (advance^[2] initClock).HourOfDay =
      initClock.HourOfDay + (2 : ℕ) * initClock.AnimateIncrement ∧
    (advance^[2] initClock).DayOfYear =
      initClock.DayOfYear + (2 : ℕ) * (initClock.AnimateIncrement / 24) ∧
    spinAngleDeg { initClock with HourOfDay := 12 } earthEntry = 4320 :=
  accumulators_unreduced initClock 2 rfl rfl

end Solar
